import Mathlib

/-!
Shallow embedding of the rule-based anomaly-detection core of the
Museum-Anomaly-Detection backend (`src/backend/main.py`): the sensor
reading data model, the default thresholds, the rule-based evaluator
`detect_anomaly_rule_based`, the explanation generator
`generate_anomaly_explanation`, and the threshold resolution performed by
the `/anomaly/check` endpoint handler `check_anomaly`.

Numeric values (Python floats) are modelled as rationals.  Python raises
`ZeroDivisionError` on float division by zero, so division is modelled in
an `Except` monad: `pydiv` mirrors the Python runtime's behaviour exactly,
and the evaluator propagates the error as the Python function would
propagate the exception.
-/

namespace Museum

/-- A sensor reading (`SensorData` pydantic model, main.py lines 54-58).
The timestamp plays no role in the detection logic and is omitted. -/
structure SensorData where
  temperature : ℚ
  humidity : ℚ
  vibration : ℚ
  deriving Repr, DecidableEq

/-- A per-quantity `{"min": .., "max": ..}` bound pair. -/
structure MinMax where
  min : ℚ
  max : ℚ
  deriving Repr, DecidableEq

/-- A threshold dictionary as used by `detect_anomaly_rule_based`: a Python
dict keyed by quantity name, in which any of the three keys may be absent
(callers may pass partial dicts through `threshold_config`). -/
structure Thresholds where
  temperature : Option MinMax
  humidity : Option MinMax
  vibration : Option MinMax
  deriving Repr, DecidableEq

/-- `DEFAULT_THRESHOLDS["temperature"]` (main.py line 458). -/
def defaultTemperature : MinMax := ⟨18, 24⟩

/-- `DEFAULT_THRESHOLDS["humidity"]` (main.py line 459). -/
def defaultHumidity : MinMax := ⟨40, 60⟩

/-- `DEFAULT_THRESHOLDS["vibration"]` (main.py line 460). -/
def defaultVibration : MinMax := ⟨0, 1/2⟩

/-- `DEFAULT_THRESHOLDS` (main.py lines 457-461), with every key present. -/
def DEFAULT_THRESHOLDS : Thresholds :=
  ⟨some defaultTemperature, some defaultHumidity, some defaultVibration⟩

/-- The result dictionary returned by `detect_anomaly_rule_based`
(main.py lines 519-524). -/
structure DetectResult where
  is_anomaly : Bool
  anomaly_score : ℚ
  anomalies : List String
  affected_sensors : List String
  deriving Repr, DecidableEq

/-- Python float division: `a / b` raises `ZeroDivisionError` when `b = 0`,
and otherwise yields the quotient. -/
def pydiv (a b : ℚ) : Except String ℚ :=
  if b = 0 then Except.error "float division by zero" else Except.ok (a / b)

/-- Python `max` over a list of floats (`max(scores)`); the `[]` case is
never reached because the source guards with `if scores`. -/
def listMax : List ℚ → ℚ
  | [] => 0
  | x :: xs => xs.foldl max x

/-- Python `anomaly.split('_')[0]`: the part of the tag before the first
underscore (the first field of the split is exactly the characters
preceding the first `'_'`). -/
def firstToken (s : String) : String :=
  String.mk (s.toList.takeWhile (fun c => c ≠ '_'))

/-- One `if value < min / elif value > max` check block of
`detect_anomaly_rule_based` (main.py lines 493-499 for temperature,
502-508 for humidity), returning the tags and scores it appends. -/
def checkRange (value : ℚ) (t : MinMax) (lowTag highTag : String) :
    Except String (List String × List ℚ) :=
  if value < t.min then
    match pydiv |value - t.min| t.min with
    | Except.error e => Except.error e
    | Except.ok s => Except.ok ([lowTag], [s])
  else if value > t.max then
    match pydiv |value - t.max| t.max with
    | Except.error e => Except.error e
    | Except.ok s => Except.ok ([highTag], [s])
  else Except.ok ([], [])

/-- The `if value > max` check block for vibration
(main.py lines 511-514), which has no low check. -/
def checkHigh (value : ℚ) (t : MinMax) (highTag : String) :
    Except String (List String × List ℚ) :=
  if value > t.max then
    match pydiv |value - t.max| t.max with
    | Except.error e => Except.error e
    | Except.ok s => Except.ok ([highTag], [s])
  else Except.ok ([], [])

/-- `detect_anomaly_rule_based(data, thresholds)` (main.py lines 485-524).
Each quantity's threshold is looked up with
`thresholds.get(key, DEFAULT_THRESHOLDS[key])`; the three check blocks run
in order (temperature, humidity, vibration), appending tags and scores;
then `is_anomaly = len(anomalies) > 0`,
`anomaly_score = max(scores) if scores else 0.0`, clamped with
`min(anomaly_score, 1.0)`, and
`affected_sensors = [a.split('_')[0] for a in anomalies]`. -/
def detect_anomaly_rule_based (data : SensorData) (thresholds : Thresholds) :
    Except String DetectResult :=
  let temp_threshold := thresholds.temperature.getD defaultTemperature
  let humidity_threshold := thresholds.humidity.getD defaultHumidity
  let vibration_threshold := thresholds.vibration.getD defaultVibration
  match checkRange data.temperature temp_threshold "temperature_low" "temperature_high" with
  | Except.error e => Except.error e
  | Except.ok (ta, ts) =>
    match checkRange data.humidity humidity_threshold "humidity_low" "humidity_high" with
    | Except.error e => Except.error e
    | Except.ok (ha, hs) =>
      match checkHigh data.vibration vibration_threshold "vibration_high" with
      | Except.error e => Except.error e
      | Except.ok (va, vs) =>
        let anomalies := ta ++ ha ++ va
        let scores := ts ++ hs ++ vs
        let anomaly_score := if scores.isEmpty then (0 : ℚ) else listMax scores
        Except.ok
          { is_anomaly := decide (0 < anomalies.length)
            anomaly_score := min anomaly_score 1
            anomalies := anomalies
            affected_sensors := anomalies.map firstToken }

/-- The ordered list of anomaly tags fired by `detect_anomaly_rule_based`:
the same strict comparisons as the source's three check blocks, in source
order (temperature, humidity, vibration). -/
def triggeredTags (data : SensorData) (thresholds : Thresholds) : List String :=
  let tt := thresholds.temperature.getD defaultTemperature
  let ht := thresholds.humidity.getD defaultHumidity
  let vt := thresholds.vibration.getD defaultVibration
  (if data.temperature < tt.min then ["temperature_low"]
   else if data.temperature > tt.max then ["temperature_high"]
   else []) ++
  (if data.humidity < ht.min then ["humidity_low"]
   else if data.humidity > ht.max then ["humidity_high"]
   else []) ++
  (if data.vibration > vt.max then ["vibration_high"] else [])

/-- The ordered list of normalized deviations recorded by
`detect_anomaly_rule_based` for the fired tags: for each fired check,
`abs(value - bound) / bound` against the violated bound, written with
total rational division (the source's float division agrees with it
whenever the bound is nonzero). -/
def triggeredDeviations (data : SensorData) (thresholds : Thresholds) : List ℚ :=
  let tt := thresholds.temperature.getD defaultTemperature
  let ht := thresholds.humidity.getD defaultHumidity
  let vt := thresholds.vibration.getD defaultVibration
  (if data.temperature < tt.min then [|data.temperature - tt.min| / tt.min]
   else if data.temperature > tt.max then [|data.temperature - tt.max| / tt.max]
   else []) ++
  (if data.humidity < ht.min then [|data.humidity - ht.min| / ht.min]
   else if data.humidity > ht.max then [|data.humidity - ht.max| / ht.max]
   else []) ++
  (if data.vibration > vt.max then [|data.vibration - vt.max| / vt.max] else [])

/-- Some check block of `detect_anomaly_rule_based` fires with a bound that
is exactly `0`, i.e. the Python code divides by zero. -/
def firedZeroBound (data : SensorData) (thresholds : Thresholds) : Prop :=
  let tt := thresholds.temperature.getD defaultTemperature
  let ht := thresholds.humidity.getD defaultHumidity
  let vt := thresholds.vibration.getD defaultVibration
  (data.temperature < tt.min ∧ tt.min = 0) ∨
  (¬ data.temperature < tt.min ∧ data.temperature > tt.max ∧ tt.max = 0) ∨
  (data.humidity < ht.min ∧ ht.min = 0) ∨
  (¬ data.humidity < ht.min ∧ data.humidity > ht.max ∧ ht.max = 0) ∨
  (data.vibration > vt.max ∧ vt.max = 0)

/-- Every bound used by a fired check of `detect_anomaly_rule_based` is
strictly positive. -/
def triggeredBoundsPositive (data : SensorData) (thresholds : Thresholds) : Prop :=
  let tt := thresholds.temperature.getD defaultTemperature
  let ht := thresholds.humidity.getD defaultHumidity
  let vt := thresholds.vibration.getD defaultVibration
  (data.temperature < tt.min → 0 < tt.min) ∧
  (¬ data.temperature < tt.min → data.temperature > tt.max → 0 < tt.max) ∧
  (data.humidity < ht.min → 0 < ht.min) ∧
  (¬ data.humidity < ht.min → data.humidity > ht.max → 0 < ht.max) ∧
  (data.vibration > vt.max → 0 < vt.max)

/-- The `explanations` dict of `generate_anomaly_explanation`
(main.py lines 531-537) together with the `.get` lookup: `some` for the
five known tags (the f-string templated message interpolating the relevant
reading field), `none` for any other tag. -/
def explanations (sensor_data : SensorData) (tag : String) : Option String :=
  if tag = "temperature_high" then
    some ("Temperature (" ++ toString sensor_data.temperature ++
      "°C) is above safe levels. This could damage artifacts or promote mold growth.")
  else if tag = "temperature_low" then
    some ("Temperature (" ++ toString sensor_data.temperature ++
      "°C) is below recommended levels. This could cause condensation or material stress.")
  else if tag = "humidity_high" then
    some ("Humidity (" ++ toString sensor_data.humidity ++
      "%) is too high. This increases risk of mold, corrosion, and deterioration.")
  else if tag = "humidity_low" then
    some ("Humidity (" ++ toString sensor_data.humidity ++
      "%) is too low. This can cause cracking and brittleness in organic materials.")
  else if tag = "vibration_high" then
    some ("Vibration levels (" ++ toString sensor_data.vibration ++
      ") are excessive. This could indicate structural issues or nearby construction.")
  else none

/-- `generate_anomaly_explanation(anomalies, sensor_data)`
(main.py lines 527-544): the empty tag list yields the fixed sentence; one
tag yields its looked-up sentence (`.get` falling back to
`"Anomaly detected: {anomaly}"`); several tags yield the joined sentences
behind the fixed prefix. -/
def generate_anomaly_explanation (anomalies : List String) (sensor_data : SensorData) :
    String :=
  if anomalies.isEmpty then "All sensor readings are within normal parameters."
  else
    let selected_explanations := anomalies.map fun a =>
      (explanations sensor_data a).getD ("Anomaly detected: " ++ a)
    if selected_explanations.length = 1 then selected_explanations.headD ""
    else "Multiple issues detected: " ++ String.intercalate " | " selected_explanations

/-- An exhibit row of the `exhibits` table, restricted to the threshold
columns read by `check_anomaly` (main.py lines 60-71 and 721-725). -/
structure Exhibit where
  temperature_min : ℚ
  temperature_max : ℚ
  humidity_min : ℚ
  humidity_max : ℚ
  vibration_max : ℚ
  deriving Repr, DecidableEq

/-- The threshold dict built by `check_anomaly` from a stored exhibit
(main.py lines 721-725): all three keys present, vibration min fixed 0. -/
def exhibitThresholds (e : Exhibit) : Thresholds :=
  { temperature := some ⟨e.temperature_min, e.temperature_max⟩
    humidity := some ⟨e.humidity_min, e.humidity_max⟩
    vibration := some ⟨0, e.vibration_max⟩ }

/-- Python truthiness of `request.exhibit_id : Optional[int]`:
`None` and `0` are falsy. -/
def intOptionTruthy : Option ℤ → Bool
  | none => false
  | some n => n != 0

/-- Python truthiness of a threshold dict: non-empty (at least one key). -/
def thresholdsTruthy (t : Thresholds) : Bool :=
  t.temperature.isSome || t.humidity.isSome || t.vibration.isSome

/-- The body of the `/anomaly/check` request (`AnomalyCheck` pydantic
model, main.py lines 87-90). -/
structure AnomalyCheck where
  sensor_data : SensorData
  exhibit_id : Option ℤ
  threshold_config : Option Thresholds

/-- The threshold resolution performed by `check_anomaly`
(main.py lines 716-730): if `request.exhibit_id` is truthy and
`get_exhibit_by_id` (modelled by `db`; SQLite AUTOINCREMENT ids are ≥ 1)
finds a row, its per-exhibit thresholds are used; otherwise
`request.threshold_config or DEFAULT_THRESHOLDS`. -/
def resolveThresholds (db : ℤ → Option Exhibit) (request : AnomalyCheck) : Thresholds :=
  let thresholds0 : Option Thresholds :=
    if intOptionTruthy request.exhibit_id then
      match request.exhibit_id.bind db with
      | some exhibit => some (exhibitThresholds exhibit)
      | none => none
    else none
  match thresholds0 with
  | some t => t
  | none =>
    match request.threshold_config with
    | some cfg => if thresholdsTruthy cfg then cfg else DEFAULT_THRESHOLDS
    | none => DEFAULT_THRESHOLDS

/-- `detect_anomaly_rule_based` with the three per-quantity bound pairs
given directly: the same body as `detect_anomaly_rule_based`, with no
reference to `DEFAULT_THRESHOLDS`. -/
def detectWithBounds (data : SensorData) (tt ht vt : MinMax) :
    Except String DetectResult :=
  match checkRange data.temperature tt "temperature_low" "temperature_high" with
  | Except.error e => Except.error e
  | Except.ok (ta, ts) =>
    match checkRange data.humidity ht "humidity_low" "humidity_high" with
    | Except.error e => Except.error e
    | Except.ok (ha, hs) =>
      match checkHigh data.vibration vt "vibration_high" with
      | Except.error e => Except.error e
      | Except.ok (va, vs) =>
        let anomalies := ta ++ ha ++ va
        let scores := ts ++ hs ++ vs
        let anomaly_score := if scores.isEmpty then (0 : ℚ) else listMax scores
        Except.ok
          { is_anomaly := decide (0 < anomalies.length)
            anomaly_score := min anomaly_score 1
            anomalies := anomalies
            affected_sensors := anomalies.map firstToken }

/-! ### Characterization lemmas for the evaluator -/

theorem checkRange_ok (value : ℚ) (t : MinMax) (lowTag highTag : String)
    (h1 : value < t.min → t.min ≠ 0)
    (h2 : ¬ value < t.min → value > t.max → t.max ≠ 0) :
    checkRange value t lowTag highTag =
      Except.ok
        ((if value < t.min then [lowTag]
          else if value > t.max then [highTag] else []),
         (if value < t.min then [|value - t.min| / t.min]
          else if value > t.max then [|value - t.max| / t.max] else [])) := by
  unfold checkRange pydiv
  split_ifs with ha hb hc hd <;> (try simp_all) <;> linarith

theorem checkHigh_ok (value : ℚ) (t : MinMax) (highTag : String)
    (h : value > t.max → t.max ≠ 0) :
    checkHigh value t highTag =
      Except.ok
        ((if value > t.max then [highTag] else []),
         (if value > t.max then [|value - t.max| / t.max] else [])) := by
  unfold checkHigh pydiv
  split_ifs with ha hb <;> (try simp_all) <;> linarith

theorem checkRange_error (value : ℚ) (t : MinMax) (lowTag highTag : String)
    (h : (value < t.min ∧ t.min = 0) ∨
      (¬ value < t.min ∧ value > t.max ∧ t.max = 0)) :
    checkRange value t lowTag highTag = Except.error "float division by zero" := by
  unfold checkRange pydiv
  rcases h with ⟨h1, h2⟩ | ⟨h1, h2, h3⟩ <;> split_ifs <;> simp_all

theorem checkHigh_error (value : ℚ) (t : MinMax) (highTag : String)
    (h : value > t.max ∧ t.max = 0) :
    checkHigh value t highTag = Except.error "float division by zero" := by
  unfold checkHigh pydiv
  obtain ⟨h1, h2⟩ := h
  split_ifs <;> simp_all

/-- When no fired check has a zero bound, the evaluator succeeds and its
result is determined by the pure tag and deviation lists. -/
theorem detect_ok_eq (data : SensorData) (thresholds : Thresholds)
    (hz : ¬ firedZeroBound data thresholds) :
    detect_anomaly_rule_based data thresholds =
      Except.ok
        { is_anomaly := decide (0 < (triggeredTags data thresholds).length)
          anomaly_score :=
            min (if (triggeredDeviations data thresholds).isEmpty then 0
                 else listMax (triggeredDeviations data thresholds)) 1
          anomalies := triggeredTags data thresholds
          affected_sensors := (triggeredTags data thresholds).map firstToken } := by
  simp only [firedZeroBound, not_or] at hz
  obtain ⟨hz1, hz2, hz3, hz4, hz5⟩ := hz
  unfold detect_anomaly_rule_based
  dsimp only
  rw [checkRange_ok _ _ _ _ (fun h => not_and.mp hz1 h)
      (fun h h' => (not_and.mp (not_and.mp hz2 h) h')),
    checkRange_ok _ _ _ _ (fun h => not_and.mp hz3 h)
      (fun h h' => (not_and.mp (not_and.mp hz4 h) h')),
    checkHigh_ok _ _ _ (fun h => not_and.mp hz5 h)]
  simp only [triggeredTags, triggeredDeviations]

/-- When some fired check has a zero bound, the evaluator raises
`ZeroDivisionError`. -/
theorem detect_error_eq (data : SensorData) (thresholds : Thresholds)
    (hz : firedZeroBound data thresholds) :
    detect_anomaly_rule_based data thresholds =
      Except.error "float division by zero" := by
  simp only [firedZeroBound] at hz
  unfold detect_anomaly_rule_based
  dsimp only
  by_cases htemp :
      (data.temperature < (thresholds.temperature.getD defaultTemperature).min ∧
        (thresholds.temperature.getD defaultTemperature).min = 0) ∨
      (¬ data.temperature < (thresholds.temperature.getD defaultTemperature).min ∧
        data.temperature > (thresholds.temperature.getD defaultTemperature).max ∧
        (thresholds.temperature.getD defaultTemperature).max = 0)
  · rw [checkRange_error _ _ _ _ htemp]
  · rw [not_or] at htemp
    obtain ⟨ht1, ht2⟩ := htemp
    rw [checkRange_ok _ _ _ _ (fun h => not_and.mp ht1 h)
      (fun h h' => (not_and.mp (not_and.mp ht2 h) h'))]
    by_cases hhum :
        (data.humidity < (thresholds.humidity.getD defaultHumidity).min ∧
          (thresholds.humidity.getD defaultHumidity).min = 0) ∨
        (¬ data.humidity < (thresholds.humidity.getD defaultHumidity).min ∧
          data.humidity > (thresholds.humidity.getD defaultHumidity).max ∧
          (thresholds.humidity.getD defaultHumidity).max = 0)
    · rw [checkRange_error _ _ _ _ hhum]
    · rw [not_or] at hhum
      obtain ⟨hh1, hh2⟩ := hhum
      rw [checkRange_ok _ _ _ _ (fun h => not_and.mp hh1 h)
        (fun h h' => (not_and.mp (not_and.mp hh2 h) h'))]
      have hv : data.vibration > (thresholds.vibration.getD defaultVibration).max ∧
          (thresholds.vibration.getD defaultVibration).max = 0 := by tauto
      rw [checkHigh_error _ _ _ hv]

/-- A successful evaluation implies no fired check had a zero bound. -/
theorem detect_ok_not_fired {data : SensorData} {thresholds : Thresholds}
    {res : DetectResult}
    (h : detect_anomaly_rule_based data thresholds = Except.ok res) :
    ¬ firedZeroBound data thresholds := by
  intro hz
  rw [detect_error_eq data thresholds hz] at h
  exact Except.noConfusion h

/-- The fields of any successful evaluation, in terms of the pure tag and
deviation lists. -/
theorem detect_ok_elim {data : SensorData} {thresholds : Thresholds}
    {res : DetectResult}
    (h : detect_anomaly_rule_based data thresholds = Except.ok res) :
    res =
      { is_anomaly := decide (0 < (triggeredTags data thresholds).length)
        anomaly_score :=
          min (if (triggeredDeviations data thresholds).isEmpty then 0
               else listMax (triggeredDeviations data thresholds)) 1
        anomalies := triggeredTags data thresholds
        affected_sensors := (triggeredTags data thresholds).map firstToken } := by
  have hz := detect_ok_not_fired h
  rw [detect_ok_eq data thresholds hz] at h
  exact (Except.ok.inj h).symm

/-! ### Helper lemmas about `listMax` and the pure tag/deviation lists -/

theorem foldl_max_mono {xs ys : List ℚ} (h : List.Forall₂ (· ≤ ·) xs ys) :
    ∀ {a b : ℚ}, a ≤ b → xs.foldl max a ≤ ys.foldl max b := by
  induction h with
  | nil => intro a b hab; simpa using hab
  | cons hxy htail ih => intro a b hab; exact ih (max_le_max hab hxy)

theorem listMax_mono {xs ys : List ℚ} (h : List.Forall₂ (· ≤ ·) xs ys) :
    listMax xs ≤ listMax ys := by
  cases h with
  | nil => exact le_refl 0
  | cons hxy htail => exact foldl_max_mono htail hxy

theorem le_foldl_max (l : List ℚ) (a : ℚ) : a ≤ l.foldl max a := by
  induction l generalizing a with
  | nil => exact le_refl a
  | cons x xs ih => exact le_trans (le_max_left a x) (ih (max a x))

theorem listMax_nonneg {l : List ℚ} (h : ∀ x ∈ l, 0 ≤ x) : 0 ≤ listMax l := by
  cases l with
  | nil => exact le_refl 0
  | cons x xs => exact le_trans (h x (by simp)) (le_foldl_max xs x)

/-- The clamped score `min (max(scores) if scores else 0.0) 1.0` is monotone
under a pointwise increase of the score list. -/
theorem clamped_listMax_mono {xs ys : List ℚ} (h : List.Forall₂ (· ≤ ·) xs ys) :
    min (if xs.isEmpty then (0 : ℚ) else listMax xs) 1 ≤
      min (if ys.isEmpty then (0 : ℚ) else listMax ys) 1 := by
  apply min_le_min _ le_rfl
  cases h with
  | nil => simp
  | cons hxy htail => simpa [List.isEmpty] using foldl_max_mono htail hxy

/-- Moving a value further below a positive violated lower bound does not
decrease the normalized deviation. -/
theorem dev_le_dev_low {v v' b : ℚ} (h : v < b) (hb : 0 < b) (hv : v' ≤ v) :
    |v - b| / b ≤ |v' - b| / b := by
  have h1 : |v - b| ≤ |v' - b| := by
    rw [abs_of_neg (by linarith), abs_of_neg (by linarith)]
    linarith
  exact (div_le_div_iff_of_pos_right hb).mpr h1

/-- Moving a value further above a positive violated upper bound does not
decrease the normalized deviation. -/
theorem dev_le_dev_high {v v' b : ℚ} (h : b < v) (hb : 0 < b) (hv : v ≤ v') :
    |v - b| / b ≤ |v' - b| / b := by
  have h1 : |v - b| ≤ |v' - b| := by
    rw [abs_of_pos (by linarith), abs_of_pos (by linarith)]
    linarith
  exact (div_le_div_iff_of_pos_right hb).mpr h1

/-- The evaluator pushes one deviation per fired tag: the two lists always
have the same length. -/
theorem triggeredDeviations_length (data : SensorData) (thresholds : Thresholds) :
    (triggeredDeviations data thresholds).length =
      (triggeredTags data thresholds).length := by
  simp only [triggeredTags, triggeredDeviations]
  split_ifs <;> rfl

theorem triggeredDeviations_eq_nil_iff (data : SensorData) (thresholds : Thresholds) :
    triggeredDeviations data thresholds = [] ↔ triggeredTags data thresholds = [] := by
  rw [← List.length_eq_zero, ← List.length_eq_zero, triggeredDeviations_length]

/-- All deviations are nonnegative when every fired bound is positive. -/
theorem triggeredDeviations_nonneg {data : SensorData} {thresholds : Thresholds}
    (hpos : triggeredBoundsPositive data thresholds) :
    ∀ x ∈ triggeredDeviations data thresholds, 0 ≤ x := by
  simp only [triggeredBoundsPositive] at hpos
  obtain ⟨h1, h2, h3, h4, h5⟩ := hpos
  intro x hx
  simp only [triggeredDeviations, List.mem_append] at hx
  rcases hx with (hx | hx) | hx
  · split_ifs at hx with hc1 hc2
    · simp only [List.mem_singleton] at hx
      subst hx
      exact div_nonneg (abs_nonneg _) (h1 hc1).le
    · simp only [List.mem_singleton] at hx
      subst hx
      exact div_nonneg (abs_nonneg _) (h2 hc1 hc2).le
    · simp at hx
  · split_ifs at hx with hc1 hc2
    · simp only [List.mem_singleton] at hx
      subst hx
      exact div_nonneg (abs_nonneg _) (h3 hc1).le
    · simp only [List.mem_singleton] at hx
      subst hx
      exact div_nonneg (abs_nonneg _) (h4 hc1 hc2).le
    · simp at hx
  · split_ifs at hx with hc1
    · simp only [List.mem_singleton] at hx
      subst hx
      exact div_nonneg (abs_nonneg _) (h5 hc1).le
    · simp at hx

/-! ### Claim theorems -/

/-- C2: for every sensor reading and threshold set on which
`detect_anomaly_rule_based` returns, `is_anomaly` is true iff the
`anomalies` list is non-empty, and `anomaly_score` is `0.0` whenever the
`anomalies` list is empty. -/
theorem anomaly_flag_iff_nonempty {data : SensorData} {thresholds : Thresholds}
    {res : DetectResult}
    (h : detect_anomaly_rule_based data thresholds = Except.ok res) :
    (res.is_anomaly = true ↔ res.anomalies ≠ []) ∧
    (res.anomalies = [] → res.anomaly_score = 0) := by
  have hres := detect_ok_elim h
  subst hres
  constructor
  · simpa using List.length_pos
  · intro htags
    simp only at htags ⊢
    have hdev : triggeredDeviations data thresholds = [] :=
      (triggeredDeviations_eq_nil_iff data thresholds).mpr htags
    simp [hdev]

/-- Witness for C2 at the reading `(30, 50, 0.1)` under the default
thresholds, where only `temperature_high` fires. -/
theorem anomaly_flag_iff_nonempty_witness :
    ((true : Bool) = true ↔ (["temperature_high"] : List String) ≠ []) ∧
    ((["temperature_high"] : List String) = [] → (1/4 : ℚ) = 0) := by
  have h : detect_anomaly_rule_based ⟨30, 50, 1/10⟩ DEFAULT_THRESHOLDS =
      Except.ok ⟨true, 1/4, ["temperature_high"], ["temperature"]⟩ := by
    simp only [detect_anomaly_rule_based, checkRange, checkHigh, pydiv, DEFAULT_THRESHOLDS,
      defaultTemperature, defaultHumidity, defaultVibration, Option.getD]
    norm_num [listMax, firstToken, min_def, max_def]
    and_intros <;> first | decide | norm_num [max_def, abs_of_pos]
  exact anomaly_flag_iff_nonempty h

/-- C3: under thresholds `{temperature: (18,24), humidity: (40,60),
vibration: (0, 0.5)}`, the reading `(30, 50, 0.1)` yields exactly
`["temperature_high"]` with score `(30-24)/24 = 1/4 = 0.25`, and the
reading `(30, 80, 1.0)` yields the three tags in source order with the
clamped score `1.0`. -/
theorem example_readings_eval :
    detect_anomaly_rule_based ⟨30, 50, 1/10⟩
        ⟨some ⟨18, 24⟩, some ⟨40, 60⟩, some ⟨0, 1/2⟩⟩ =
      Except.ok ⟨true, 1/4, ["temperature_high"], ["temperature"]⟩ ∧
    detect_anomaly_rule_based ⟨30, 80, 1⟩
        ⟨some ⟨18, 24⟩, some ⟨40, 60⟩, some ⟨0, 1/2⟩⟩ =
      Except.ok ⟨true, 1, ["temperature_high", "humidity_high", "vibration_high"],
        ["temperature", "humidity", "vibration"]⟩ := by
  constructor <;>
  · simp only [detect_anomaly_rule_based, checkRange, checkHigh, pydiv, Option.getD]
    norm_num [listMax, firstToken, min_def, max_def]
    and_intros <;> first | decide | norm_num [max_def, abs_of_pos]

/-- C5 counterexample: the threshold set `{temperature: (18, 24)}` carries
no humidity bound, yet evaluating the reading `(21, 80, 0)` with it fires
`humidity_high` — against the default humidity bound `60`, a bound taken
from the lower-precedence `DEFAULT_THRESHOLDS`, refuting that the selected
set is the only source of bounds. -/
theorem partial_thresholds_merge_cex :
    (⟨some ⟨18, 24⟩, none, none⟩ : Thresholds).humidity = none ∧
    detect_anomaly_rule_based ⟨21, 80, 0⟩ ⟨some ⟨18, 24⟩, none, none⟩ =
      Except.ok ⟨true, 1/3, ["humidity_high"], ["humidity"]⟩ := by
  refine ⟨rfl, ?_⟩
  simp only [detect_anomaly_rule_based, checkRange, checkHigh, pydiv, Option.getD,
    defaultHumidity, defaultVibration]
  norm_num [listMax, firstToken, min_def, max_def]
  and_intros <;> first | decide | norm_num [max_def, abs_of_pos]

/-- C5 amended: when the selected threshold set provides bounds for all
three quantities, the evaluator uses that set wholesale — its result
coincides with an evaluator given just those three bound pairs and no
access to the default table.  (A quantity missing from the selected set
instead falls back to the default's bound for that quantity, per the
counterexample.) -/
theorem full_thresholds_used_wholesale (data : SensorData) (tt ht vt : MinMax) :
    detect_anomaly_rule_based data ⟨some tt, some ht, some vt⟩ =
      detectWithBounds data tt ht vt := rfl

/-- C6: the evaluator fails (Python `ZeroDivisionError`, the undefined
deviation ratio) exactly when some fired check's bound is `0`: the
division is attempted with a zero divisor rather than special-cased, and
no other input makes the evaluator fail. -/
theorem zero_bound_division_iff_error (data : SensorData) (thresholds : Thresholds) :
    (∃ e, detect_anomaly_rule_based data thresholds = Except.error e) ↔
      firedZeroBound data thresholds := by
  constructor
  · rintro ⟨e, he⟩
    by_contra hz
    rw [detect_ok_eq data thresholds hz] at he
    exact Except.noConfusion he
  · intro hz
    exact ⟨_, detect_error_eq data thresholds hz⟩

/-- C1 counterexample: with a negative lower bound (`temperature min = -5`)
the reading `-10` fires `temperature_low` with deviation
`abs(-10 - (-5)) / (-5) = -1`, so the returned anomaly_score is `-1`,
which does not lie in `[0, 1]`. -/
theorem anomaly_score_negative_cex :
    detect_anomaly_rule_based ⟨-10, 50, 0⟩
        ⟨some ⟨-5, 24⟩, some ⟨40, 60⟩, some ⟨0, 1/2⟩⟩ =
      Except.ok ⟨true, -1, ["temperature_low"], ["temperature"]⟩ ∧
    ¬ (0 ≤ (-1 : ℚ)) := by
  refine ⟨?_, by norm_num⟩
  simp only [detect_anomaly_rule_based, checkRange, checkHigh, pydiv, Option.getD]
  norm_num [listMax, firstToken, min_def, max_def]
  and_intros <;> first | decide | norm_num [max_def, abs_of_pos]

/-- C1 amended: on success the returned anomaly_score equals the maximum of
the individual normalized deviations over all triggered tags, upper-clamped
to 1.0 (and 0.0 with no triggered tag); it lies in `[0, 1]` provided every
bound used by a triggered tag is positive — with a negative bound the score
can be negative, per the counterexample. -/
theorem anomaly_score_eq_clamped_max {data : SensorData} {thresholds : Thresholds}
    {res : DetectResult}
    (h : detect_anomaly_rule_based data thresholds = Except.ok res) :
    res.anomaly_score =
      min (if (triggeredDeviations data thresholds).isEmpty then 0
           else listMax (triggeredDeviations data thresholds)) 1 ∧
    (triggeredBoundsPositive data thresholds →
      0 ≤ res.anomaly_score ∧ res.anomaly_score ≤ 1) := by
  have hres := detect_ok_elim h
  subst hres
  refine ⟨rfl, fun hpos => ⟨?_, min_le_right _ _⟩⟩
  simp only
  refine le_min ?_ zero_le_one
  split
  · exact le_refl 0
  · exact listMax_nonneg (triggeredDeviations_nonneg hpos)

/-- Witness for C1 (amended) at the reading `(30, 50, 0.1)` under the
default thresholds. -/
theorem anomaly_score_eq_clamped_max_witness :
    (1/4 : ℚ) =
      min (if (triggeredDeviations ⟨30, 50, 1/10⟩ DEFAULT_THRESHOLDS).isEmpty then 0
           else listMax (triggeredDeviations ⟨30, 50, 1/10⟩ DEFAULT_THRESHOLDS)) 1 ∧
    (0 ≤ (1/4 : ℚ) ∧ (1/4 : ℚ) ≤ 1) := by
  have h : detect_anomaly_rule_based ⟨30, 50, 1/10⟩ DEFAULT_THRESHOLDS =
      Except.ok ⟨true, 1/4, ["temperature_high"], ["temperature"]⟩ := by
    simp only [detect_anomaly_rule_based, checkRange, checkHigh, pydiv, DEFAULT_THRESHOLDS,
      defaultTemperature, defaultHumidity, defaultVibration, Option.getD]
    norm_num [listMax, firstToken, min_def, max_def]
    and_intros <;> first | decide | norm_num [max_def, abs_of_pos]
  have hpos : triggeredBoundsPositive ⟨30, 50, 1/10⟩ DEFAULT_THRESHOLDS := by
    simp only [triggeredBoundsPositive, DEFAULT_THRESHOLDS, defaultTemperature,
      defaultHumidity, defaultVibration, Option.getD]
    norm_num
  have r := anomaly_score_eq_clamped_max h
  exact ⟨r.1, r.2 hpos⟩

/-- C8: for every reading and threshold set on which the evaluator returns,
affected_sensors is exactly the quantity-name prefix (the part before the
first underscore) of each produced tag, in tag order, and contains no
duplicate. -/
theorem affected_sensors_prefixes_nodup {data : SensorData} {thresholds : Thresholds}
    {res : DetectResult}
    (h : detect_anomaly_rule_based data thresholds = Except.ok res) :
    res.affected_sensors = res.anomalies.map firstToken ∧
    res.affected_sensors.Nodup := by
  have hres := detect_ok_elim h
  subst hres
  refine ⟨rfl, ?_⟩
  simp only [triggeredTags]
  split_ifs <;> decide

/-- Witness for C8 at the reading `(30, 50, 0.1)` under the default
thresholds. -/
theorem affected_sensors_prefixes_nodup_witness :
    (["temperature"] : List String) = ["temperature_high"].map firstToken ∧
    (["temperature"] : List String).Nodup := by
  have h : detect_anomaly_rule_based ⟨30, 50, 1/10⟩ DEFAULT_THRESHOLDS =
      Except.ok ⟨true, 1/4, ["temperature_high"], ["temperature"]⟩ := by
    simp only [detect_anomaly_rule_based, checkRange, checkHigh, pydiv, DEFAULT_THRESHOLDS,
      defaultTemperature, defaultHumidity, defaultVibration, Option.getD]
    norm_num [listMax, firstToken, min_def, max_def]
    and_intros <;> first | decide | norm_num [max_def, abs_of_pos]
  exact affected_sensors_prefixes_nodup h

/-- C4: `check_anomaly` threshold resolution, highest precedence first: a
stored exhibit-specific threshold set when the request carries a known
(nonzero, per SQLite AUTOINCREMENT) exhibit id — regardless of any
request-supplied set — otherwise the caller-supplied set when present
(non-empty), otherwise `DEFAULT_THRESHOLDS`. -/
theorem threshold_resolution_precedence (db : ℤ → Option Exhibit)
    (request : AnomalyCheck) :
    (∀ eid exhibit, request.exhibit_id = some eid → eid ≠ 0 → db eid = some exhibit →
      resolveThresholds db request = exhibitThresholds exhibit) ∧
    ((∀ eid, request.exhibit_id = some eid → eid = 0 ∨ db eid = none) →
      (∀ cfg, request.threshold_config = some cfg → thresholdsTruthy cfg = true →
        resolveThresholds db request = cfg) ∧
      (request.threshold_config = none →
        resolveThresholds db request = DEFAULT_THRESHOLDS)) := by
  constructor
  · intro eid exhibit heid hne hdb
    simp [resolveThresholds, heid, hdb, intOptionTruthy, hne, Option.bind]
  · intro hmiss
    have h0 : (if intOptionTruthy request.exhibit_id then
        match request.exhibit_id.bind db with
        | some exhibit => some (exhibitThresholds exhibit)
        | none => none
      else none) = (none : Option Thresholds) := by
      rcases heid : request.exhibit_id with _ | eid
      · simp [intOptionTruthy]
      · rcases hmiss eid heid with h | h
        · simp [intOptionTruthy, h]
        · by_cases hz : eid = 0
          · simp [intOptionTruthy, hz]
          · simp [intOptionTruthy, hz, h, Option.bind]
    constructor
    · intro cfg hcfg htr
      simp [resolveThresholds, h0, hcfg, htr]
    · intro hcfg
      simp [resolveThresholds, h0, hcfg]

/-- Witness for C4 with a one-exhibit store: exhibit id 1 wins over the
request-supplied set; an unknown id 2 falls back to the request-supplied
set; no id and no set falls back to the default. -/
theorem threshold_resolution_precedence_witness :
    resolveThresholds (fun i => if i = 1 then some ⟨19, 23, 45, 55, 1⟩ else none)
        ⟨⟨21, 50, 0⟩, some 1, some ⟨some ⟨0, 100⟩, none, none⟩⟩ =
      exhibitThresholds ⟨19, 23, 45, 55, 1⟩ ∧
    resolveThresholds (fun i => if i = 1 then some ⟨19, 23, 45, 55, 1⟩ else none)
        ⟨⟨21, 50, 0⟩, some 2, some ⟨some ⟨0, 100⟩, none, none⟩⟩ =
      (⟨some ⟨0, 100⟩, none, none⟩ : Thresholds) ∧
    resolveThresholds (fun i => if i = 1 then some ⟨19, 23, 45, 55, 1⟩ else none)
        ⟨⟨21, 50, 0⟩, none, none⟩ = DEFAULT_THRESHOLDS := by
  refine ⟨?_, ?_, ?_⟩
  · exact (threshold_resolution_precedence _ _).1 1 ⟨19, 23, 45, 55, 1⟩ rfl
      (by norm_num) (by norm_num)
  · exact ((threshold_resolution_precedence _ _).2
      (fun eid heid => by
        cases Option.some.inj heid
        right
        norm_num)).1 ⟨some ⟨0, 100⟩, none, none⟩ rfl rfl
  · exact ((threshold_resolution_precedence _ _).2
      (fun eid heid => Option.noConfusion heid)).2 rfl

/-- C7: composition of `generate_anomaly_explanation`: no tag gives the
fixed in-range sentence whatever the reading; a single known tag gives its
templated sentence verbatim; a single unknown tag gives the
`"Anomaly detected: "` fallback; two or more tags give the per-tag
sentences joined behind `"Multiple issues detected: "` with `" | "`, in
the order the tags were supplied. -/
theorem explanation_composition (sensor_data : SensorData) :
    (generate_anomaly_explanation [] sensor_data =
      "All sensor readings are within normal parameters.") ∧
    (∀ tag s, explanations sensor_data tag = some s →
      generate_anomaly_explanation [tag] sensor_data = s) ∧
    (∀ tag, explanations sensor_data tag = none →
      generate_anomaly_explanation [tag] sensor_data = "Anomaly detected: " ++ tag) ∧
    (∀ tags, 2 ≤ tags.length →
      generate_anomaly_explanation tags sensor_data =
        "Multiple issues detected: " ++ String.intercalate " | "
          (tags.map fun a => (explanations sensor_data a).getD
            ("Anomaly detected: " ++ a))) := by
  refine ⟨rfl, ?_, ?_, ?_⟩
  · intro tag s hs
    simp [generate_anomaly_explanation, hs]
  · intro tag hs
    simp [generate_anomaly_explanation, hs]
  · intro tags hlen
    match tags with
    | [] => simp at hlen
    | [a] => simp at hlen
    | a :: b :: rest =>
      simp [generate_anomaly_explanation]

/-- Witness for C7 at the reading `(30, 80, 1)`, covering all four parts of
the composition rule. -/
theorem explanation_composition_witness :
    (generate_anomaly_explanation [] ⟨30, 80, 1⟩ =
      "All sensor readings are within normal parameters.") ∧
    (generate_anomaly_explanation ["temperature_high"] ⟨30, 80, 1⟩ =
      "Temperature (" ++ toString (30 : ℚ) ++
        "°C) is above safe levels. This could damage artifacts or promote mold growth.") ∧
    (generate_anomaly_explanation ["mystery_tag"] ⟨30, 80, 1⟩ =
      "Anomaly detected: " ++ "mystery_tag") ∧
    (generate_anomaly_explanation ["temperature_high", "humidity_high"] ⟨30, 80, 1⟩ =
      "Multiple issues detected: " ++ String.intercalate " | "
        (["temperature_high", "humidity_high"].map fun a =>
          (explanations ⟨30, 80, 1⟩ a).getD ("Anomaly detected: " ++ a))) := by
  have r := explanation_composition ⟨30, 80, 1⟩
  exact ⟨r.1, r.2.1 "temperature_high" _ rfl, r.2.2.1 "mystery_tag" rfl,
    r.2.2.2 ["temperature_high", "humidity_high"] (by norm_num)⟩

/-- C9 counterexample: with `temperature min = -5`, moving the reading from
`-10` further down to `-20` (further past the violated bound) takes the
anomaly_score from `-1` down to `-3`: the score decreases. -/
theorem score_monotonicity_cex :
    detect_anomaly_rule_based ⟨-10, 50, 0⟩
        ⟨some ⟨-5, 24⟩, some ⟨40, 60⟩, some ⟨0, 1/2⟩⟩ =
      Except.ok ⟨true, -1, ["temperature_low"], ["temperature"]⟩ ∧
    detect_anomaly_rule_based ⟨-20, 50, 0⟩
        ⟨some ⟨-5, 24⟩, some ⟨40, 60⟩, some ⟨0, 1/2⟩⟩ =
      Except.ok ⟨true, -3, ["temperature_low"], ["temperature"]⟩ ∧
    ¬ ((-1 : ℚ) ≤ -3) := by
  refine ⟨?_, ?_, by norm_num⟩ <;>
  · simp only [detect_anomaly_rule_based, checkRange, checkHigh, pydiv, Option.getD]
    norm_num [listMax, firstToken, min_def, max_def]
    and_intros <;> first | decide | norm_num [max_def, abs_of_pos]

/-- C9 amended: moving a single out-of-range quantity further past its
violated bound, thresholds and the other quantities fixed, never decreases
the returned anomaly_score — provided the violated bound is positive (with
a negative bound the score can decrease, per the counterexample). -/
theorem score_monotonicity_positive_bounds (thresholds : Thresholds)
    (data : SensorData) (v' : ℚ) :
    (((data.temperature < (thresholds.temperature.getD defaultTemperature).min ∧
        0 < (thresholds.temperature.getD defaultTemperature).min ∧
        v' ≤ data.temperature) ∨
      (¬ data.temperature < (thresholds.temperature.getD defaultTemperature).min ∧
        data.temperature > (thresholds.temperature.getD defaultTemperature).max ∧
        0 < (thresholds.temperature.getD defaultTemperature).max ∧
        data.temperature ≤ v')) →
      ∀ res res',
        detect_anomaly_rule_based data thresholds = Except.ok res →
        detect_anomaly_rule_based { data with temperature := v' } thresholds =
          Except.ok res' →
        res.anomaly_score ≤ res'.anomaly_score) ∧
    (((data.humidity < (thresholds.humidity.getD defaultHumidity).min ∧
        0 < (thresholds.humidity.getD defaultHumidity).min ∧
        v' ≤ data.humidity) ∨
      (¬ data.humidity < (thresholds.humidity.getD defaultHumidity).min ∧
        data.humidity > (thresholds.humidity.getD defaultHumidity).max ∧
        0 < (thresholds.humidity.getD defaultHumidity).max ∧
        data.humidity ≤ v')) →
      ∀ res res',
        detect_anomaly_rule_based data thresholds = Except.ok res →
        detect_anomaly_rule_based { data with humidity := v' } thresholds =
          Except.ok res' →
        res.anomaly_score ≤ res'.anomaly_score) ∧
    ((data.vibration > (thresholds.vibration.getD defaultVibration).max ∧
        0 < (thresholds.vibration.getD defaultVibration).max ∧
        data.vibration ≤ v') →
      ∀ res res',
        detect_anomaly_rule_based data thresholds = Except.ok res →
        detect_anomaly_rule_based { data with vibration := v' } thresholds =
          Except.ok res' →
        res.anomaly_score ≤ res'.anomaly_score) := by
  refine ⟨?_, ?_, ?_⟩
  · rintro hcase res res' h h'
    have e := detect_ok_elim h
    subst e
    have e' := detect_ok_elim h'
    subst e'
    simp only
    apply clamped_listMax_mono
    simp only [triggeredDeviations]
    rcases hcase with ⟨hf, hb, hv⟩ | ⟨hnl, hf, hb, hv⟩
    · rw [if_pos hf, if_pos (lt_of_le_of_lt hv hf)]
      exact List.rel_append (List.rel_append
        (List.Forall₂.cons (dev_le_dev_low hf hb hv) List.Forall₂.nil)
        (List.forall₂_refl _)) (List.forall₂_refl _)
    · have hnl' : ¬ v' < (thresholds.temperature.getD defaultTemperature).min :=
        not_lt.mpr (le_trans (not_lt.mp hnl) hv)
      rw [if_neg hnl, if_neg hnl', if_pos hf, if_pos (lt_of_lt_of_le hf hv)]
      exact List.rel_append (List.rel_append
        (List.Forall₂.cons (dev_le_dev_high hf hb hv) List.Forall₂.nil)
        (List.forall₂_refl _)) (List.forall₂_refl _)
  · rintro hcase res res' h h'
    have e := detect_ok_elim h
    subst e
    have e' := detect_ok_elim h'
    subst e'
    simp only
    apply clamped_listMax_mono
    simp only [triggeredDeviations]
    rcases hcase with ⟨hf, hb, hv⟩ | ⟨hnl, hf, hb, hv⟩
    · rw [if_pos hf, if_pos (lt_of_le_of_lt hv hf)]
      exact List.rel_append (List.rel_append (List.forall₂_refl _)
        (List.Forall₂.cons (dev_le_dev_low hf hb hv) List.Forall₂.nil))
        (List.forall₂_refl _)
    · have hnl' : ¬ v' < (thresholds.humidity.getD defaultHumidity).min :=
        not_lt.mpr (le_trans (not_lt.mp hnl) hv)
      rw [if_neg hnl, if_neg hnl', if_pos hf, if_pos (lt_of_lt_of_le hf hv)]
      exact List.rel_append (List.rel_append (List.forall₂_refl _)
        (List.Forall₂.cons (dev_le_dev_high hf hb hv) List.Forall₂.nil))
        (List.forall₂_refl _)
  · rintro ⟨hf, hb, hv⟩ res res' h h'
    have e := detect_ok_elim h
    subst e
    have e' := detect_ok_elim h'
    subst e'
    simp only
    apply clamped_listMax_mono
    simp only [triggeredDeviations]
    rw [if_pos hf, if_pos (lt_of_lt_of_le hf hv)]
    exact List.rel_append (List.forall₂_refl _)
      (List.Forall₂.cons (dev_le_dev_high hf hb hv) List.Forall₂.nil)

/-- Witness for C9 (amended): raising an over-limit temperature from `30`
to `40` under the default thresholds raises the score from `1/4` to `2/3`. -/
theorem score_monotonicity_positive_bounds_witness : (1/4 : ℚ) ≤ 2/3 := by
  have h : detect_anomaly_rule_based ⟨30, 50, 0⟩ DEFAULT_THRESHOLDS =
      Except.ok ⟨true, 1/4, ["temperature_high"], ["temperature"]⟩ := by
    simp only [detect_anomaly_rule_based, checkRange, checkHigh, pydiv, DEFAULT_THRESHOLDS,
      defaultTemperature, defaultHumidity, defaultVibration, Option.getD]
    norm_num [listMax, firstToken, min_def, max_def]
    and_intros <;> first | decide | norm_num [max_def, abs_of_pos]
  have h' : detect_anomaly_rule_based ⟨40, 50, 0⟩ DEFAULT_THRESHOLDS =
      Except.ok ⟨true, 2/3, ["temperature_high"], ["temperature"]⟩ := by
    simp only [detect_anomaly_rule_based, checkRange, checkHigh, pydiv, DEFAULT_THRESHOLDS,
      defaultTemperature, defaultHumidity, defaultVibration, Option.getD]
    norm_num [listMax, firstToken, min_def, max_def]
    and_intros <;> first | decide | norm_num [max_def, abs_of_pos]
  exact (score_monotonicity_positive_bounds DEFAULT_THRESHOLDS ⟨30, 50, 0⟩ 40).1
    (Or.inr (by norm_num [DEFAULT_THRESHOLDS, defaultTemperature, Option.getD]))
    ⟨true, 1/4, ["temperature_high"], ["temperature"]⟩
    ⟨true, 2/3, ["temperature_high"], ["temperature"]⟩ h h'

/-- C10 counterexample: with inverted temperature bounds `min 30 > max 24`,
the reading `30` sits exactly on its min bound yet produces the
`temperature_high` tag (it exceeds the max bound). -/
theorem boundary_value_tag_cex :
    (⟨30, 50, 0⟩ : SensorData).temperature =
      ((⟨some ⟨30, 24⟩, some ⟨40, 60⟩, some ⟨0, 1/2⟩⟩ : Thresholds).temperature.getD
        defaultTemperature).min ∧
    detect_anomaly_rule_based ⟨30, 50, 0⟩ ⟨some ⟨30, 24⟩, some ⟨40, 60⟩, some ⟨0, 1/2⟩⟩ =
      Except.ok ⟨true, 1/4, ["temperature_high"], ["temperature"]⟩ := by
  refine ⟨rfl, ?_⟩
  simp only [detect_anomaly_rule_based, checkRange, checkHigh, pydiv, Option.getD]
  norm_num [listMax, firstToken, min_def, max_def]
  and_intros <;> first | decide | norm_num [max_def, abs_of_pos]

/-- C10 amended: every comparison is strict, so a reading exactly on a
bound fires no tag for that quantity — provided `min ≤ max` for that
quantity (with inverted bounds a reading on one bound can violate the
other, per the counterexample); vibration needs no proviso.  A reading
sitting exactly on all its bounds yields `is_anomaly = false` with score
`0` and no tags. -/
theorem boundary_values_not_anomalous (data : SensorData) (thresholds : Thresholds) :
    ((thresholds.temperature.getD defaultTemperature).min ≤
        (thresholds.temperature.getD defaultTemperature).max →
      (data.temperature = (thresholds.temperature.getD defaultTemperature).min ∨
        data.temperature = (thresholds.temperature.getD defaultTemperature).max) →
      ∀ res, detect_anomaly_rule_based data thresholds = Except.ok res →
        "temperature_low" ∉ res.anomalies ∧ "temperature_high" ∉ res.anomalies) ∧
    ((thresholds.humidity.getD defaultHumidity).min ≤
        (thresholds.humidity.getD defaultHumidity).max →
      (data.humidity = (thresholds.humidity.getD defaultHumidity).min ∨
        data.humidity = (thresholds.humidity.getD defaultHumidity).max) →
      ∀ res, detect_anomaly_rule_based data thresholds = Except.ok res →
        "humidity_low" ∉ res.anomalies ∧ "humidity_high" ∉ res.anomalies) ∧
    (data.vibration = (thresholds.vibration.getD defaultVibration).max →
      ∀ res, detect_anomaly_rule_based data thresholds = Except.ok res →
        "vibration_high" ∉ res.anomalies) ∧
    ((thresholds.temperature.getD defaultTemperature).min ≤
        (thresholds.temperature.getD defaultTemperature).max →
      (thresholds.humidity.getD defaultHumidity).min ≤
        (thresholds.humidity.getD defaultHumidity).max →
      (data.temperature = (thresholds.temperature.getD defaultTemperature).min ∨
        data.temperature = (thresholds.temperature.getD defaultTemperature).max) →
      (data.humidity = (thresholds.humidity.getD defaultHumidity).min ∨
        data.humidity = (thresholds.humidity.getD defaultHumidity).max) →
      data.vibration = (thresholds.vibration.getD defaultVibration).max →
      detect_anomaly_rule_based data thresholds = Except.ok ⟨false, 0, [], []⟩) := by
  refine ⟨?_, ?_, ?_, ?_⟩
  · intro hmm hon res h
    have hres := detect_ok_elim h
    subst hres
    have h1 : ¬ data.temperature < (thresholds.temperature.getD defaultTemperature).min := by
      rcases hon with h | h <;> rw [h]
      · exact lt_irrefl _
      · exact not_lt.mpr hmm
    have h2 : ¬ data.temperature > (thresholds.temperature.getD defaultTemperature).max := by
      rcases hon with h | h <;> rw [h]
      · exact not_lt.mpr hmm
      · exact lt_irrefl _
    simp only [triggeredTags, if_neg h1, if_neg h2, List.nil_append]
    constructor <;> split_ifs <;> decide
  · intro hmm hon res h
    have hres := detect_ok_elim h
    subst hres
    have h3 : ¬ data.humidity < (thresholds.humidity.getD defaultHumidity).min := by
      rcases hon with h | h <;> rw [h]
      · exact lt_irrefl _
      · exact not_lt.mpr hmm
    have h4 : ¬ data.humidity > (thresholds.humidity.getD defaultHumidity).max := by
      rcases hon with h | h <;> rw [h]
      · exact not_lt.mpr hmm
      · exact lt_irrefl _
    simp only [triggeredTags, if_neg h3, if_neg h4]
    constructor <;> split_ifs <;> decide
  · intro hon res h
    have hres := detect_ok_elim h
    subst hres
    have h5 : ¬ data.vibration > (thresholds.vibration.getD defaultVibration).max := by
      rw [hon]
      exact lt_irrefl _
    simp only [triggeredTags, if_neg h5, List.append_nil]
    split_ifs <;> decide
  · intro hmmT hmmH honT honH honV
    have h1 : ¬ data.temperature < (thresholds.temperature.getD defaultTemperature).min := by
      rcases honT with h | h <;> rw [h]
      · exact lt_irrefl _
      · exact not_lt.mpr hmmT
    have h2 : ¬ data.temperature > (thresholds.temperature.getD defaultTemperature).max := by
      rcases honT with h | h <;> rw [h]
      · exact not_lt.mpr hmmT
      · exact lt_irrefl _
    have h3 : ¬ data.humidity < (thresholds.humidity.getD defaultHumidity).min := by
      rcases honH with h | h <;> rw [h]
      · exact lt_irrefl _
      · exact not_lt.mpr hmmH
    have h4 : ¬ data.humidity > (thresholds.humidity.getD defaultHumidity).max := by
      rcases honH with h | h <;> rw [h]
      · exact not_lt.mpr hmmH
      · exact lt_irrefl _
    have h5 : ¬ data.vibration > (thresholds.vibration.getD defaultVibration).max := by
      rw [honV]
      exact lt_irrefl _
    have hz : ¬ firedZeroBound data thresholds := by
      simp only [firedZeroBound, not_or]
      exact ⟨fun hc => h1 hc.1, fun hc => h2 hc.2.1, fun hc => h3 hc.1,
        fun hc => h4 hc.2.1, fun hc => h5 hc.1⟩
    rw [detect_ok_eq data thresholds hz]
    simp only [triggeredTags, triggeredDeviations, if_neg h1, if_neg h2, if_neg h3,
      if_neg h4, if_neg h5, List.nil_append, List.append_nil]
    norm_num [min_def]

/-- Witness for C10 (amended) at the reading `(18, 60, 0.5)` sitting on its
min temperature, max humidity and max vibration bounds under the default
thresholds. -/
theorem boundary_values_not_anomalous_witness :
    detect_anomaly_rule_based ⟨18, 60, 1/2⟩ DEFAULT_THRESHOLDS =
      Except.ok ⟨false, 0, [], []⟩ ∧
    ("temperature_low" ∉ ([] : List String) ∧
      "temperature_high" ∉ ([] : List String)) ∧
    "vibration_high" ∉ ([] : List String) := by
  have r := boundary_values_not_anomalous ⟨18, 60, 1/2⟩ DEFAULT_THRESHOLDS
  have hd : detect_anomaly_rule_based ⟨18, 60, 1/2⟩ DEFAULT_THRESHOLDS =
      Except.ok ⟨false, 0, [], []⟩ :=
    r.2.2.2 (by norm_num [DEFAULT_THRESHOLDS, defaultTemperature, Option.getD])
      (by norm_num [DEFAULT_THRESHOLDS, defaultHumidity, Option.getD])
      (Or.inl (by norm_num [DEFAULT_THRESHOLDS, defaultTemperature, Option.getD]))
      (Or.inr (by norm_num [DEFAULT_THRESHOLDS, defaultHumidity, Option.getD]))
      (by norm_num [DEFAULT_THRESHOLDS, defaultVibration, Option.getD])
  refine ⟨hd, ?_, ?_⟩
  · exact r.1 (by norm_num [DEFAULT_THRESHOLDS, defaultTemperature, Option.getD])
      (Or.inl (by norm_num [DEFAULT_THRESHOLDS, defaultTemperature, Option.getD]))
      ⟨false, 0, [], []⟩ hd
  · exact r.2.2.1 (by norm_num [DEFAULT_THRESHOLDS, defaultVibration, Option.getD])
      ⟨false, 0, [], []⟩ hd

end Museum
